import Mathlib

/-!
Verification development for the rclone-backup agent (rclone-backup.py).

The script is shallowly embedded: each Python function that the claims
touch becomes a Lean definition of the same name, with the external world
(filesystem, subprocesses, HTTP, the spreadsheet API) passed in as
explicit data.  `sys.exit`, uncaught exceptions and `os.execv` become
explicit outcome values.  The per-backup-type loop of `__main__` becomes
`runJob` (one iteration) and `runAll` (the loop, which stops as soon as an
iteration terminates the process).

Python string primitives (`str.upper`, `str.startswith`, `str.endswith`,
`in`, `str.splitlines`) are modelled by executable functions over the
character list of the string, so that every definition evaluates by
kernel reduction.
-/

namespace RcloneBackup

/-! ## String primitives -/

/-- Python `str.upper` on one ASCII character. -/
def charUpper (c : Char) : Char :=
  if c.toNat ≥ 97 && c.toNat ≤ 122 then Char.ofNat (c.toNat - 32) else c

/-- Python `str.upper` (ASCII). -/
def upperAscii (s : String) : String :=
  String.mk (s.toList.map charUpper)

/-- Does `hay` start with `pat`?  (Character-list core of
`str.startswith` and of Python's `in`.) -/
def startsL : List Char → List Char → Bool
  | _, [] => true
  | [], _ :: _ => false
  | a :: as, b :: bs => a == b && startsL as bs

/-- Python `s.startswith(pre)`. -/
def strStarts (s pre : String) : Bool :=
  startsL s.toList pre.toList

/-- Python `s.endswith(suf)`. -/
def strEnds (s suf : String) : Bool :=
  startsL s.toList.reverse suf.toList.reverse

/-- Does `hay` contain `pat` as a contiguous substring?  (Python `pat in hay`.) -/
def hasSubL : List Char → List Char → Bool
  | [], pat => startsL [] pat
  | a :: as, pat => startsL (a :: as) pat || hasSubL as pat

/-- Python `pat in hay` on strings. -/
def strContains (hay pat : String) : Bool :=
  hasSubL hay.toList pat.toList

/-- Split a character list at every occurrence of `c`. -/
def splitOnChar (c : Char) : List Char → List (List Char)
  | [] => [[]]
  | a :: as =>
    let r := splitOnChar c as
    if a == c then [] :: r
    else
      match r with
      | [] => [[a]]
      | g :: gs => (a :: g) :: gs

/-- Python's `str.splitlines` restricted to newline-separated text (the
only separator rclone's `lsf` output uses): splits on newline and drops a
trailing empty piece; the empty string yields no lines. -/
def splitlines (s : String) : List String :=
  if s = "" then []
  else
    let parts := (splitOnChar (Char.ofNat 10) s.toList).map String.mk
    if parts.getLast? = some "" then parts.dropLast else parts

/-! ## Script constants -/

/-- `BACKUP_KEEP_COUNT = 5`: number of compressed backups to retain. -/
def BACKUP_KEEP_COUNT : Nat := 5

/-- `RCLONE_REMOTE_NAME = 'googledrive'`. -/
def RCLONE_REMOTE_NAME : String := "googledrive"

def DHCP_SPREADSHEET_ID : String := "1QWORlX7No7FN2woNCmrf4xmtI1cRNC3pxHpk7auXxuE"
def DNS_SPREADSHEET_ID : String := "1jmRT9r900HD-MVYCq-JYwl2p8aIcdsqrqivnomvMFG8"
def GORILLAMANIFESTS_SPREADSHEET_ID : String := "1y4wpZvrD9_f9t5NypY-JWjAWBjXGbsJ5fEB3pqelRo4"
def MUNKIMANIFESTS_SPREADSHEET_ID : String := "1mGkoHwadX2aMW7UKjJGKmAkmfXZWd3Ark5rixv6dvgw"
def UNIFI_SPREADSHEET_ID : String := "1FOAeJrO_NBspwAZGf4_kRTnzh0dXCIcXzhBcDQSHoew"

/-- Models the dispatch
`exec(f"spreadsheet_id = \x7bbackup_type.upper()\x7d_SPREADSHEET_ID")`
in `__main__`.  The `exec` resolves the global named
`<BACKUP_TYPE>_SPREADSHEET_ID`; exactly the five globals above exist, so
any `backup_type` whose upper-casing is not one of the five names raises
an uncaught `NameError` — modelled by `none`. -/
def spreadsheet_id_for (backup_type : String) : Option String :=
  if upperAscii backup_type = "DHCP" then some DHCP_SPREADSHEET_ID
  else if upperAscii backup_type = "DNS" then some DNS_SPREADSHEET_ID
  else if upperAscii backup_type = "GORILLAMANIFESTS" then some GORILLAMANIFESTS_SPREADSHEET_ID
  else if upperAscii backup_type = "MUNKIMANIFESTS" then some MUNKIMANIFESTS_SPREADSHEET_ID
  else if upperAscii backup_type = "UNIFI" then some UNIFI_SPREADSHEET_ID
  else none

/-! ## Source locator (`get_backup_source`) -/

/-- The filesystem as seen by the unifi branch of `get_backup_source`:
`os.path.exists`, `os.listdir`, `os.path.getmtime` (directory and file
name), and `time.time()` as `now`.  Times are modelled as integers
(seconds).  Filesystem access is modelled total, so the `except` branch
that maps an OS error to a `"[ERROR] detecting autobackup failure"`
string is never taken. -/
structure UnifiFS where
  pathExists : String → Bool
  listdir : String → List String
  getmtime : String → String → Int
  now : Int

/-- `7 * 24 * 60 * 60` seconds: the freshness window. -/
def one_week_seconds : Int := 7 * 24 * 60 * 60

/-- The fixed candidate list `unifi_autobackup_paths`, in source order. -/
def unifi_autobackup_paths : List String :=
  [ "/var/lib/unifi/backup/autobackup",
    "/data/unifi/data/backup/autobackup",
    "/srv/unifi/data/backup/autobackup",
    "/usr/lib/unifi/data/backup/autobackup",
    "/opt/unifi/data/backup/autobackup" ]

/-- Does directory `path` hold a file ending in `.unf` whose modification
time is within the last week?  This is the condition under which the
inner `for file in files` loop of `get_backup_source` returns `path`. -/
def has_recent_unf (fs : UnifiFS) (path : String) : Bool :=
  (fs.listdir path).any (fun file =>
    strEnds file ".unf" && decide (fs.getmtime path file ≥ fs.now - one_week_seconds))

/-- The outer `for path in unifi_autobackup_paths` loop: skip paths that
do not exist, return the first existing path holding a recent `.unf`
file, otherwise fall through to the next candidate. -/
def find_recent_autobackup (fs : UnifiFS) : List String → Option String
  | [] => none
  | path :: rest =>
    if fs.pathExists path then
      if has_recent_unf fs path then some path
      else find_recent_autobackup fs rest
    else find_recent_autobackup fs rest

/-- The error string returned when no candidate has a recent backup. -/
def no_recent_backup_error : String :=
  "[ERROR] No autobackup path with recent backups detected. Exiting."

/-- `get_backup_source(backup_type)`: fixed paths for the four static
types, freshness discovery for `unifi`, Python `None` (here `none`) for
anything else.  The unifi branch returns the discovered path, or the
`"[ERROR] ..."` string when the loop finds nothing. -/
def get_backup_source (backup_type : String) (fs : UnifiFS) : Option String :=
  if backup_type = "dhcp" then some "/etc/dhcp"
  else if backup_type = "dns" then some "/etc/bind"
  else if backup_type = "gorillamanifests" then some "/srv/www/gorilla/manifests"
  else if backup_type = "munkimanifests" then some "/srv/www/munki/manifests"
  else if backup_type = "unifi" then
    match find_recent_autobackup fs unifi_autobackup_paths with
    | some path => some path
    | none => some no_recent_backup_error
  else none

/-! ## Status reporter (`append_to_google_sheet`) -/

/-- Effects of one call to `append_to_google_sheet`:
`appendOk` — the row was appended; `errorLogged` — the
`"[ERROR] Failed to update Google Sheet"` line was logged;
`exitCode` — `some n` when the call ends in `sys.exit(n)`. -/
structure SheetCall where
  appendOk : Bool
  errorLogged : Bool
  exitCode : Option Nat
deriving DecidableEq, Repr

/-- `append_to_google_sheet(tab, status, sheet_id)`, with the remote API
outcome passed in as `apiFails` (an `HttpError` from any of the sheet
calls).  On `HttpError` it logs and `sys.exit(1)`; after a successful
append it `sys.exit(1)` exactly when `status == "FAILURE"`. -/
def append_to_google_sheet (apiFails : Bool) (status : String) : SheetCall :=
  if apiFails then { appendOk := false, errorLogged := true, exitCode := some 1 }
  else if status = "FAILURE" then { appendOk := true, errorLogged := false, exitCode := some 1 }
  else { appendOk := true, errorLogged := false, exitCode := none }

/-! ## Transport: listing and deleting -/

/-- `rclone_list_files(destination, pattern)`: the subprocess is run
without `check=True`, so it never raises; `stdout` is the captured
standard output of `rclone lsf --order-by modtime` (empty when the
command fails).  The result is every output line containing `pat`. -/
def rclone_list_files (stdout pat : String) : List String :=
  (splitlines stdout).filter (fun line => strContains line pat)

/-- The files handed to `rclone_delete` by the loop
`for file_to_delete in files_present[:delete_count]`, with
`delete_count = len(files_present) - BACKUP_KEEP_COUNT`, guarded by
`delete_count > 0`; the subtraction is Python int subtraction, hence `Int`. -/
def prune_deleted (files_present : List String) (keep_count : Nat) : List String :=
  let delete_count : Int := (files_present.length : Int) - (keep_count : Int)
  if delete_count > 0 then files_present.take delete_count.toNat else []

/-- The delete loop with `rclone_delete`'s `check=True` semantics: a
failing delete raises `CalledProcessError`, which aborts the loop (the
exception propagates to the retention step's `except`).  Returns the
list of files on which `rclone_delete` was actually invoked, and whether
the loop completed without an exception. -/
def attempt_deletes (deleteFails : String → Bool) : List String → List String × Bool
  | [] => ([], true)
  | f :: rest =>
    if deleteFails f then ([f], false)
    else
      let r := attempt_deletes deleteFails rest
      (f :: r.1, r.2)

/-! ## Self updater -/

/-- Effects of one call to `self_update_script`:
`warned` — the `"[WARNING] Failed to download"` line was logged;
`wrote` — `some c` when the script file was overwritten with content `c`;
`reexec` — `os.execv` replaced the process. -/
structure SelfUpdateResult where
  warned : Bool
  wrote : Option String
  reexec : Bool
deriving DecidableEq, Repr

/-- `self_update_script()` with `get_remote_script_content` folded in:
`fetched = none` models a `requests.RequestException` (the helper logs a
warning and returns `None`); `some remote` is the fetched text.  The
guard `if not remote_script_content: return` makes both `None` and the
empty string a no-op.  Otherwise the SHA-256 hashes (modelled by the
abstract `hash` function) are compared: equal hashes do nothing; unequal
hashes overwrite the file with exactly the fetched content and re-exec. -/
def self_update_script (current : String) (hash : String → String)
    (fetched : Option String) : SelfUpdateResult :=
  match fetched with
  | none => { warned := true, wrote := none, reexec := false }
  | some remote =>
    if remote = "" then { warned := false, wrote := none, reexec := false }
    else if hash current = hash remote then
      { warned := false, wrote := none, reexec := false }
    else
      { warned := false, wrote := some remote, reexec := true }

/-! ## The per-job body of `__main__` -/

/-- External outcomes for one backup type, threaded into `runJob`:
whether `rclone listremotes` lists `googledrive:`, the filesystem for the
source locator, `os.path.isdir`, success of `tar` and of `rclone copy`,
the stdout of `rclone lsf`, which deletes fail, and whether the
spreadsheet API fails. -/
structure JobEnv where
  remoteConfigured : Bool
  fs : UnifiFS
  isdir : String → Bool
  compressOk : Bool
  uploadOk : Bool
  listStdout : String
  deleteFails : String → Bool
  sheetApiFails : Bool

/-- How one loop iteration ends: fall through to the next backup type,
terminate the process via `sys.exit code`, or crash on an uncaught
exception (the `NameError` from the spreadsheet-id `exec`). -/
inductive JobEnd where
  | next : JobEnd
  | exited : Nat → JobEnd
  | crashed : JobEnd
deriving DecidableEq, Repr

/-- Observable trace of one loop iteration.
`sourceLookedUp` — `get_backup_source` was called;
`reported` — statuses successfully appended to the sheet, in order;
`apiErrorLogged` — a sheet API failure was logged;
`compressed` — `compress_source` succeeded (archive created in /tmp);
`archiveRemoved` — `os.remove(compressed_file)` ran;
`pruneAttempted` — the retention step (`rclone_list_files` + delete loop) ran;
`deletesAttempted` — remote files on which `rclone_delete` was invoked;
`finalStatus` — the value of the `status` global when the iteration ends. -/
structure JobTrace where
  sourceLookedUp : Bool
  reported : List String
  apiErrorLogged : Bool
  compressed : Bool
  archiveRemoved : Bool
  pruneAttempted : Bool
  deletesAttempted : List String
  finalStatus : String
  ending : JobEnd
deriving DecidableEq, Repr

def sheetEnding (c : SheetCall) : JobEnd :=
  match c.exitCode with
  | some n => JobEnd.exited n
  | none => JobEnd.next

/-- The trace of an iteration that dies at the spreadsheet-id `exec`
with an uncaught `NameError`: nothing else has run, `status` is
untouched. -/
def crashTrace (status0 : String) : JobTrace :=
  { sourceLookedUp := false, reported := [], apiErrorLogged := false,
    compressed := false, archiveRemoved := false, pruneAttempted := false,
    deletesAttempted := [], finalStatus := status0, ending := JobEnd.crashed }

/-- A failure branch of the loop body: set `status = "FAILURE"` and call
`append_to_google_sheet`.  Since that call always exits when the status
is FAILURE (see `append_failure_always_exits`), nothing after it runs,
so the iteration ends here.  `archiveCreated` is true only in the
upload-failure branch, where the `finally: os.remove(compressed_file)`
runs while the `SystemExit` from the reporter unwinds — hence
`archiveRemoved := archiveCreated`. -/
def failEnd (env : JobEnv) (looked archiveCreated : Bool) : JobTrace :=
  let c := append_to_google_sheet env.sheetApiFails "FAILURE"
  { sourceLookedUp := looked
    reported := if c.appendOk then ["FAILURE"] else []
    apiErrorLogged := c.errorLogged
    compressed := archiveCreated
    archiveRemoved := archiveCreated
    pruneAttempted := false
    deletesAttempted := []
    finalStatus := "FAILURE"
    ending := sheetEnding c }

/-- The trace of an iteration whose upload succeeds: `status` is set to
SUCCESS, the local archive is removed by the `finally`, the retention
step lists the remote archives and attempts the excess deletes (its
`except` swallows any delete failure), and the final
`append_to_google_sheet` reports SUCCESS. -/
def successTrace (bt site : String) (env : JobEnv) : JobTrace :=
  let files := rclone_list_files env.listStdout (site ++ "_" ++ bt ++ "_backup")
  let att := (attempt_deletes env.deleteFails (prune_deleted files BACKUP_KEEP_COUNT)).1
  let c := append_to_google_sheet env.sheetApiFails "SUCCESS"
  { sourceLookedUp := true
    reported := if c.appendOk then ["SUCCESS"] else []
    apiErrorLogged := c.errorLogged
    compressed := true
    archiveRemoved := true
    pruneAttempted := true
    deletesAttempted := att
    finalStatus := "SUCCESS"
    ending := sheetEnding c }

/-- One iteration of the `for backup_type in backup_types` loop of
`__main__`, for backup type `bt` at site `site`, starting with the
current value `status0` of the `status` global:
spreadsheet-id dispatch (uncaught `NameError` on unknown type), remote
check, source lookup and validation, compress, upload (with
`finally: os.remove`), retention, and the final status append. -/
def runJob (bt site : String) (env : JobEnv) (status0 : String) : JobTrace :=
  match spreadsheet_id_for bt with
  | none => crashTrace status0
  | some _ =>
    if env.remoteConfigured = false then failEnd env false false
    else
      match get_backup_source bt env.fs with
      | none => failEnd env true false
      | some source =>
        if strStarts source "[ERROR]" then failEnd env true false
        else if env.isdir source = false then failEnd env true false
        else if env.compressOk = false then failEnd env true false
        else if env.uploadOk = false then failEnd env true true
        else successTrace bt site env

/-- The whole `for backup_type in backup_types` loop: run each type in
configured order, threading the `status` global; stop as soon as an
iteration exits the process or crashes.  Returns the iterations that
actually executed, each with its trace. -/
def runAll (site : String) (envOf : String → JobEnv) :
    List String → String → List (String × JobTrace)
  | [], _ => []
  | bt :: rest, status =>
    let tr := runJob bt site (envOf bt) status
    match tr.ending with
    | JobEnd.next => (bt, tr) :: runAll site envOf rest tr.finalStatus
    | _ => [(bt, tr)]

/-! ## Concrete environments used by witnesses and counterexamples -/

/-- A filesystem with no unifi autobackup directories. -/
def fsNone : UnifiFS :=
  { pathExists := fun _ => false, listdir := fun _ => [], getmtime := fun _ _ => 0, now := 0 }

/-- A filesystem where the first candidate directory exists and holds
only a stale `.unf` file plus an unrelated file, while the second
candidate holds a fresh `.unf` file (`now = 1000000`, a week is
`604800`). -/
def fsW : UnifiFS :=
  { pathExists := fun p =>
      p == "/var/lib/unifi/backup/autobackup" || p == "/data/unifi/data/backup/autobackup"
    listdir := fun p =>
      if p == "/var/lib/unifi/backup/autobackup" then ["stale.unf", "notes.txt"]
      else if p == "/data/unifi/data/backup/autobackup" then ["fresh.unf"]
      else []
    getmtime := fun _ f => if f == "fresh.unf" then 1000000 else 0
    now := 1000000 }

/-- Everything succeeds; no remote archives listed. -/
def envOk : JobEnv :=
  { remoteConfigured := true, fs := fsNone, isdir := fun _ => true,
    compressOk := true, uploadOk := true, listStdout := "",
    deleteFails := fun _ => false, sheetApiFails := false }

/-- Like `envOk` but the `rclone copy` upload fails. -/
def envUploadFail : JobEnv :=
  { envOk with uploadOk := false }

/-- Like `envOk` but `rclone listremotes` does not list the remote. -/
def envNoRemote : JobEnv :=
  { envOk with remoteConfigured := false }

/-- Like `envOk` but seven remote archives exist (two in excess of the
keep count) and deleting the oldest one fails. -/
def envDel : JobEnv :=
  { envOk with
    listStdout := "s1_dhcp_backup_1\ns1_dhcp_backup_2\ns1_dhcp_backup_3\ns1_dhcp_backup_4\ns1_dhcp_backup_5\ns1_dhcp_backup_6\ns1_dhcp_backup_7\n"
    deleteFails := fun f => f == "s1_dhcp_backup_1" }

/-! ## Shared lemmas -/

/-- Reporting a FAILURE status always terminates the process, whether or
not the API call itself succeeds. -/
lemma append_failure_always_exits (apiFails : Bool) :
    (append_to_google_sheet apiFails "FAILURE").exitCode = some 1 := by
  cases apiFails <;> rfl

/-- Every failure branch of the loop body ends in `sys.exit 1`. -/
lemma failEnd_ending (env : JobEnv) (looked arch : Bool) :
    (failEnd env looked arch).ending = JobEnd.exited 1 := by
  cases h : env.sheetApiFails <;>
    simp [failEnd, append_to_google_sheet, sheetEnding, h]

lemma failEnd_sourceLookedUp (env : JobEnv) (looked arch : Bool) :
    (failEnd env looked arch).sourceLookedUp = looked := rfl

lemma failEnd_compressed (env : JobEnv) (looked arch : Bool) :
    (failEnd env looked arch).compressed = arch := rfl

lemma failEnd_archiveRemoved (env : JobEnv) (looked arch : Bool) :
    (failEnd env looked arch).archiveRemoved = arch := rfl

lemma failEnd_pruneAttempted (env : JobEnv) (looked arch : Bool) :
    (failEnd env looked arch).pruneAttempted = false := rfl

lemma failEnd_deletesAttempted (env : JobEnv) (looked arch : Bool) :
    (failEnd env looked arch).deletesAttempted = [] := rfl

lemma failEnd_finalStatus (env : JobEnv) (looked arch : Bool) :
    (failEnd env looked arch).finalStatus = "FAILURE" := rfl

lemma successTrace_pruneAttempted (bt site : String) (env : JobEnv) :
    (successTrace bt site env).pruneAttempted = true := rfl

lemma successTrace_compressed (bt site : String) (env : JobEnv) :
    (successTrace bt site env).compressed = true := rfl

lemma successTrace_archiveRemoved (bt site : String) (env : JobEnv) :
    (successTrace bt site env).archiveRemoved = true := rfl

lemma successTrace_finalStatus (bt site : String) (env : JobEnv) :
    (successTrace bt site env).finalStatus = "SUCCESS" := rfl

lemma successTrace_ending (bt site : String) (env : JobEnv) :
    (successTrace bt site env).ending
      = sheetEnding (append_to_google_sheet env.sheetApiFails "SUCCESS") := rfl

lemma successTrace_deletesAttempted (bt site : String) (env : JobEnv) :
    (successTrace bt site env).deletesAttempted
      = (attempt_deletes env.deleteFails
          (prune_deleted (rclone_list_files env.listStdout (site ++ "_" ++ bt ++ "_backup"))
            BACKUP_KEEP_COUNT)).1 := rfl

/-- Exhaustive description of one loop iteration: it crashes at the
dispatch, ends in one of the failure branches, or runs the full
success path — and the success path is taken exactly when the upload
succeeded (every failure branch reports FAILURE and exits first). -/
lemma runJob_shape (bt site s : String) (env : JobEnv) :
    runJob bt site env s = crashTrace s ∨
    (∃ looked, runJob bt site env s = failEnd env looked false) ∨
    (env.uploadOk = false ∧ runJob bt site env s = failEnd env true true) ∨
    (env.uploadOk = true ∧ runJob bt site env s = successTrace bt site env) := by
  cases hid : spreadsheet_id_for bt with
  | none => exact Or.inl (by simp [runJob, hid])
  | some v =>
    by_cases hrc : env.remoteConfigured = false
    · exact Or.inr (Or.inl ⟨false, by simp [runJob, hid, hrc]⟩)
    · cases hsrc : get_backup_source bt env.fs with
      | none => exact Or.inr (Or.inl ⟨true, by simp [runJob, hid, hrc, hsrc]⟩)
      | some src =>
        by_cases h1 : strStarts src "[ERROR]" = true
        · exact Or.inr (Or.inl ⟨true, by simp [runJob, hid, hrc, hsrc, h1]⟩)
        · by_cases h2 : env.isdir src = false
          · exact Or.inr (Or.inl ⟨true, by simp [runJob, hid, hrc, hsrc, h1, h2]⟩)
          · by_cases h3 : env.compressOk = false
            · exact Or.inr (Or.inl ⟨true, by simp [runJob, hid, hrc, hsrc, h1, h2, h3]⟩)
            · by_cases h4 : env.uploadOk = false
              · exact Or.inr (Or.inr (Or.inl
                  ⟨h4, by simp [runJob, hid, hrc, hsrc, h1, h2, h3, h4]⟩))
              · refine Or.inr (Or.inr (Or.inr ⟨?_, ?_⟩))
                · revert h4; cases env.uploadOk <;> simp
                · simp [runJob, hid, hrc, hsrc, h1, h2, h3, h4]

/-- Pruning an empty listing deletes nothing. -/
lemma prune_deleted_nil (k : Nat) : prune_deleted [] k = [] := by
  unfold prune_deleted
  have h : ¬((([] : List String).length : Int) - (k : Int) > 0) := by simp
  rw [if_neg h]

/-- The loop stops after a job whose iteration does not fall through. -/
lemma runAll_cons_stop (site s bt : String) (rest : List String)
    (envOf : String → JobEnv) (h : (runJob bt site (envOf bt) s).ending ≠ JobEnd.next) :
    runAll site envOf (bt :: rest) s = [(bt, runJob bt site (envOf bt) s)] := by
  unfold runAll
  cases h2 : (runJob bt site (envOf bt) s).ending <;> simp_all

/-- `status` and the way the iteration ends do not depend on the stdout
of `rclone lsf` nor on which deletes fail: two environments agreeing on
every other field give the same `finalStatus` and the same `ending`. -/
lemma runJob_status_ending (bt site s : String) (env' env : JobEnv)
    (h1 : env'.remoteConfigured = env.remoteConfigured)
    (h2 : env'.fs = env.fs) (h3 : env'.isdir = env.isdir)
    (h4 : env'.compressOk = env.compressOk) (h5 : env'.uploadOk = env.uploadOk)
    (h6 : env'.sheetApiFails = env.sheetApiFails) :
    (runJob bt site env' s).finalStatus = (runJob bt site env s).finalStatus ∧
    (runJob bt site env' s).ending = (runJob bt site env s).ending := by
  cases hid : spreadsheet_id_for bt with
  | none => constructor <;> simp [runJob, hid]
  | some v =>
    by_cases hrc : env.remoteConfigured = false
    · constructor <;>
        simp [runJob, hid, h1, hrc, failEnd_finalStatus, failEnd_ending]
    · cases hsrc : get_backup_source bt env.fs with
      | none =>
        constructor <;>
          simp [runJob, hid, h1, h2, hrc, hsrc, failEnd_finalStatus, failEnd_ending]
      | some src =>
        by_cases hs : strStarts src "[ERROR]" = true
        · constructor <;>
            simp [runJob, hid, h1, h2, hrc, hsrc, hs, failEnd_finalStatus, failEnd_ending]
        · by_cases hd : env.isdir src = false
          · constructor <;>
              simp [runJob, hid, h1, h2, h3, hrc, hsrc, hs, hd,
                failEnd_finalStatus, failEnd_ending]
          · by_cases hc : env.compressOk = false
            · constructor <;>
                simp [runJob, hid, h1, h2, h3, h4, hrc, hsrc, hs, hd, hc,
                  failEnd_finalStatus, failEnd_ending]
            · by_cases hu : env.uploadOk = false
              · constructor <;>
                  simp [runJob, hid, h1, h2, h3, h4, h5, hrc, hsrc, hs, hd, hc, hu,
                    failEnd_finalStatus, failEnd_ending]
              · constructor <;>
                  simp [runJob, hid, h1, h2, h3, h4, h5, h6, hrc, hsrc, hs, hd, hc, hu,
                    successTrace_finalStatus, successTrace_ending]

/-- When the spreadsheet API fails, no iteration falls through: its final
`append_to_google_sheet` call (or an earlier failure report) exits. -/
lemma runJob_ending_of_apiFail (bt site s : String) (env : JobEnv)
    (h : env.sheetApiFails = true) :
    (runJob bt site env s).ending ≠ JobEnd.next := by
  rcases runJob_shape bt site s env with hc | ⟨l, hf⟩ | ⟨_, hf⟩ | ⟨_, hs⟩
  · rw [hc]; simp [crashTrace]
  · rw [hf, failEnd_ending]; simp
  · rw [hf, failEnd_ending]; simp
  · rw [hs]; simp [successTrace, sheetEnding, append_to_google_sheet, h]

/-- `spreadsheet_id_for bt = none` means `bt` is none of the five
recognized backup types. -/
lemma spreadsheet_none_unknown (bt : String) (h : spreadsheet_id_for bt = none) :
    bt ≠ "dhcp" ∧ bt ≠ "dns" ∧ bt ≠ "gorillamanifests" ∧
    bt ≠ "munkimanifests" ∧ bt ≠ "unifi" := by
  refine ⟨?_, ?_, ?_, ?_, ?_⟩ <;> intro he <;> subst he <;> exact absurd h (by decide)

/-- `find_recent_autobackup` returns `none` exactly when no candidate
directory both exists and holds a recent `.unf` file. -/
lemma find_recent_none_iff (fs : UnifiFS) (paths : List String) :
    find_recent_autobackup fs paths = none ↔
      ∀ p ∈ paths, ¬(fs.pathExists p = true ∧ has_recent_unf fs p = true) := by
  induction paths with
  | nil => simp [find_recent_autobackup]
  | cons p rest ih =>
    unfold find_recent_autobackup
    by_cases he : fs.pathExists p = true
    · by_cases hr : has_recent_unf fs p = true
      · simp [he, hr]
      · simp [he, hr, ih]
    · simp [he, ih]

/-- The delete loop runs every delete before a failing one, the failing
one itself, and nothing after it. -/
lemma attempt_deletes_stops (fails : String → Bool) (l1 : List String) :
    ∀ l2 f, (∀ x ∈ l1, fails x = false) → fails f = true →
      (attempt_deletes fails (l1 ++ f :: l2)).1 = l1 ++ [f] := by
  induction l1 with
  | nil => intro l2 f _ h2; simp [attempt_deletes, h2]
  | cons a as ih =>
    intro l2 f h1 h2
    have ha : fails a = false := h1 a (by simp)
    have ih' := ih l2 f (fun x hx => h1 x (by simp [hx])) h2
    simp [attempt_deletes, ha, ih']

/-! ## Claim theorems -/

/-- C1, counterexample: in a run where everything works except the
`rclone copy` upload, the archive was created (`compressed`), yet the
retention step never runs (`pruneAttempted = false`): the FAILURE report
exits the process (exit code 1) before the pruning code is reached.
This refutes the claim that pruning is attempted regardless of upload
outcome. -/
theorem C1_counterexample :
    (runJob "dhcp" "s1" envUploadFail "UNKNOWN").compressed = true ∧
    (runJob "dhcp" "s1" envUploadFail "UNKNOWN").pruneAttempted = false ∧
    (runJob "dhcp" "s1" envUploadFail "UNKNOWN").ending = JobEnd.exited 1 := by
  refine ⟨by decide, by decide, by decide⟩

/-- C1, amended: retention pruning runs only when the job's upload
succeeded; whenever the upload fails, the FAILURE report terminates the
process before the retention step, so pruning is never attempted. -/
theorem C1_amended_thm (bt site s : String) (env : JobEnv) :
    ((runJob bt site env s).pruneAttempted = true → env.uploadOk = true) ∧
    (env.uploadOk = false →
      (runJob bt site env s).pruneAttempted = false ∧
      (runJob bt site env s).ending ≠ JobEnd.next) := by
  rcases runJob_shape bt site s env with hc | ⟨l, hf⟩ | ⟨hu, hf⟩ | ⟨hu, hs⟩
  · constructor
    · rw [hc]; intro h; exact absurd h (by simp [crashTrace])
    · intro _; rw [hc]; exact ⟨rfl, by simp [crashTrace]⟩
  · constructor
    · rw [hf, failEnd_pruneAttempted]; intro h; exact absurd h (by simp)
    · intro _; rw [hf]
      exact ⟨failEnd_pruneAttempted env l false, by rw [failEnd_ending]; simp⟩
  · constructor
    · rw [hf, failEnd_pruneAttempted]; intro h; exact absurd h (by simp)
    · intro _; rw [hf]
      exact ⟨failEnd_pruneAttempted env true true, by rw [failEnd_ending]; simp⟩
  · constructor
    · intro _; exact hu
    · intro h; rw [hu] at h; exact absurd h (by simp)

/-- C1, witness for the amended theorem at the upload-failure
environment. -/
theorem C1_amended_witness :
    (runJob "dhcp" "s1" envUploadFail "UNKNOWN").pruneAttempted = false ∧
    (runJob "dhcp" "s1" envUploadFail "UNKNOWN").ending ≠ JobEnd.next :=
  (C1_amended_thm "dhcp" "s1" "UNKNOWN" envUploadFail).2 rfl

/-- C2: when the spreadsheet API call fails, the reporter logs the error
and exits with code 1; when the appended status is FAILURE, the reporter
appends the row and then exits with code 1; and a job whose iteration
does not fall through (in particular one ended by the reporter's exit)
is the last job of the run — no later-configured backup type executes. -/
theorem C2_reporter_terminates (status site s bt : String) (rest : List String)
    (envOf : String → JobEnv) :
    ((append_to_google_sheet true status).errorLogged = true ∧
     (append_to_google_sheet true status).exitCode = some 1) ∧
    (status = "FAILURE" →
      (append_to_google_sheet false status).appendOk = true ∧
      (append_to_google_sheet false status).exitCode = some 1) ∧
    ((runJob bt site (envOf bt) s).ending ≠ JobEnd.next →
      runAll site envOf (bt :: rest) s = [(bt, runJob bt site (envOf bt) s)]) ∧
    ((envOf bt).sheetApiFails = true →
      runAll site envOf (bt :: rest) s = [(bt, runJob bt site (envOf bt) s)]) := by
  refine ⟨⟨rfl, rfl⟩, ?_, ?_, ?_⟩
  · intro h; subst h; exact ⟨rfl, rfl⟩
  · exact runAll_cons_stop site s bt rest envOf
  · intro h
    exact runAll_cons_stop site s bt rest envOf
      (runJob_ending_of_apiFail bt site s (envOf bt) h)

/-- C2, witness: a FAILURE append exits with code 1, and a run of two
configured types whose first job's upload fails processes only the
first type. -/
theorem C2_witness :
    (append_to_google_sheet false "FAILURE").exitCode = some 1 ∧
    runAll "s1" (fun _ => envUploadFail) ["dhcp", "dns"] "UNKNOWN"
      = [("dhcp", runJob "dhcp" "s1" envUploadFail "UNKNOWN")] :=
  ⟨((C2_reporter_terminates "FAILURE" "s1" "UNKNOWN" "dhcp" ["dns"]
      (fun _ => envUploadFail)).2.1 rfl).2,
   (C2_reporter_terminates "FAILURE" "s1" "UNKNOWN" "dhcp" ["dns"]
      (fun _ => envUploadFail)).2.2.1 (by decide)⟩

/-- C3: for every `keep_count ≥ 0` and listing `existing` of length `n`
(oldest first), the retention computation deletes exactly
`max(0, n - keep_count)` entries, namely the first that many (oldest)
ones, and the remaining entries are exactly the untouched tail of the
listing. -/
theorem C3_prune_exact (keep_count : Nat) (existing : List String) :
    (prune_deleted existing keep_count).length
      = ((existing.length : Int) - (keep_count : Int)).toNat ∧
    prune_deleted existing keep_count
      = existing.take (((existing.length : Int) - (keep_count : Int)).toNat) ∧
    prune_deleted existing keep_count
      ++ existing.drop (((existing.length : Int) - (keep_count : Int)).toNat)
      = existing := by
  have hle : ((existing.length : Int) - (keep_count : Int)).toNat ≤ existing.length := by
    omega
  unfold prune_deleted
  by_cases h : ((existing.length : Int) - (keep_count : Int)) > 0
  · rw [if_pos h]
    refine ⟨?_, rfl, List.take_append_drop _ _⟩
    rw [List.length_take]
    exact Nat.min_eq_left hle
  · rw [if_neg h]
    have h0 : ((existing.length : Int) - (keep_count : Int)).toNat = 0 := by omega
    rw [h0]
    simp

/-- C4, counterexample: with seven remote archives (excess two) and the
delete of the oldest failing, only the first delete is attempted — the
second excess entry is never passed to `rclone_delete`, because the
`CalledProcessError` aborts the loop.  This refutes the claim that a
delete failure does not prevent the remaining delete attempts. -/
theorem C4_counterexample :
    prune_deleted (rclone_list_files envDel.listStdout "s1_dhcp_backup") BACKUP_KEEP_COUNT
      = ["s1_dhcp_backup_1", "s1_dhcp_backup_2"] ∧
    envDel.deleteFails "s1_dhcp_backup_1" = true ∧
    (runJob "dhcp" "s1" envDel "UNKNOWN").deletesAttempted = ["s1_dhcp_backup_1"] ∧
    "s1_dhcp_backup_2" ∉ (runJob "dhcp" "s1" envDel "UNKNOWN").deletesAttempted := by
  refine ⟨by decide, by decide, by decide, by decide⟩

/-- C4, amended: during pruning the excess entries are deleted in order
up to and including the first failing delete, which aborts the remaining
delete attempts (the retention handler swallows the exception); delete
failures never change the job's status or how the iteration ends. -/
theorem C4_amended_thm (fails g : String → Bool) (l1 l2 : List String)
    (f bt site s : String) (env : JobEnv)
    (h1 : ∀ x ∈ l1, fails x = false) (h2 : fails f = true) :
    (attempt_deletes fails (l1 ++ f :: l2)).1 = l1 ++ [f] ∧
    (runJob bt site { env with deleteFails := fails } s).finalStatus
      = (runJob bt site { env with deleteFails := g } s).finalStatus ∧
    (runJob bt site { env with deleteFails := fails } s).ending
      = (runJob bt site { env with deleteFails := g } s).ending := by
  refine ⟨attempt_deletes_stops fails l1 l2 f h1 h2, ?_, ?_⟩
  · exact (runJob_status_ending bt site s { env with deleteFails := fails }
      { env with deleteFails := g } rfl rfl rfl rfl rfl rfl).1
  · exact (runJob_status_ending bt site s { env with deleteFails := fails }
      { env with deleteFails := g } rfl rfl rfl rfl rfl rfl).2

/-- C4, witness for the amended theorem at a concrete failing delete. -/
theorem C4_amended_witness :
    (attempt_deletes (fun x => x == "b") (["a"] ++ "b" :: ["c"])).1 = ["a"] ++ ["b"] ∧
    (runJob "dhcp" "s1" { envOk with deleteFails := fun x => x == "b" } "UNKNOWN").finalStatus
      = (runJob "dhcp" "s1" { envOk with deleteFails := fun _ => false } "UNKNOWN").finalStatus ∧
    (runJob "dhcp" "s1" { envOk with deleteFails := fun x => x == "b" } "UNKNOWN").ending
      = (runJob "dhcp" "s1" { envOk with deleteFails := fun _ => false } "UNKNOWN").ending :=
  C4_amended_thm (fun x => x == "b") (fun _ => false) ["a"] ["c"] "b" "dhcp" "s1" "UNKNOWN"
    envOk (by decide) (by decide)

/-- C5: in the unifi freshness discovery, a candidate directory that
exists but holds no qualifying fresh `.unf` file is skipped and the scan
continues with the subsequent candidates; the locator comes up empty
exactly when no candidate directory holds a qualifying fresh file, and
only then does `get_backup_source "unifi"` return the no-recent-backup
error. -/
theorem C5_fresh_discovery (fs : UnifiFS) (p : String) (rest : List String) :
    (fs.pathExists p = true → has_recent_unf fs p = false →
      find_recent_autobackup fs (p :: rest) = find_recent_autobackup fs rest) ∧
    (find_recent_autobackup fs unifi_autobackup_paths = none ↔
      ∀ q ∈ unifi_autobackup_paths,
        ¬(fs.pathExists q = true ∧ has_recent_unf fs q = true)) ∧
    (find_recent_autobackup fs unifi_autobackup_paths = none →
      get_backup_source "unifi" fs = some no_recent_backup_error) := by
  refine ⟨?_, find_recent_none_iff fs _, ?_⟩
  · intro he hr
    simp [find_recent_autobackup, he, hr]
  · intro h
    have hh : get_backup_source "unifi" fs
        = (match find_recent_autobackup fs unifi_autobackup_paths with
           | some path => some path
           | none => some no_recent_backup_error) := rfl
    rw [hh, h]

/-- C5, witness: the first candidate directory of `fsW` exists and has
files but no fresh `.unf`, and discovery continues with the next
candidate. -/
theorem C5_witness :
    fsW.pathExists "/var/lib/unifi/backup/autobackup" = true ∧
    has_recent_unf fsW "/var/lib/unifi/backup/autobackup" = false ∧
    find_recent_autobackup fsW
        ("/var/lib/unifi/backup/autobackup" :: ["/data/unifi/data/backup/autobackup"])
      = find_recent_autobackup fsW ["/data/unifi/data/backup/autobackup"] :=
  ⟨by decide, by decide,
   (C5_fresh_discovery fsW "/var/lib/unifi/backup/autobackup"
      ["/data/unifi/data/backup/autobackup"]).1 (by decide) (by decide)⟩

/-- C6, counterexample: with the remote unconfigured and two configured
backup types, only the first job executes and only one FAILURE row is
reported; the second configured job is never attempted and never
reported.  This refutes the claim that every configured job is reported
as FAILURE. -/
theorem C6_counterexample :
    envNoRemote.remoteConfigured = false ∧
    (runAll "s1" (fun _ => envNoRemote) ["dhcp", "dns"] "UNKNOWN").map Prod.fst = ["dhcp"] ∧
    (runJob "dhcp" "s1" envNoRemote "UNKNOWN").reported = ["FAILURE"] ∧
    (runAll "s1" (fun _ => envNoRemote) ["dhcp", "dns"] "UNKNOWN").length = 1 := by
  refine ⟨by decide, by decide, by decide, by decide⟩

/-- C6, amended: the remote alias is checked at the start of each job,
before that job's source lookup and backup steps; if the remote is
unconfigured, that job reports FAILURE and the process exits with code
1, so no subsequent configured job is attempted or reported. -/
theorem C6_amended_thm (site s bt : String) (rest : List String)
    (envOf : String → JobEnv)
    (hid : spreadsheet_id_for bt ≠ none)
    (h : (envOf bt).remoteConfigured = false) :
    (runJob bt site (envOf bt) s).sourceLookedUp = false ∧
    (runJob bt site (envOf bt) s).compressed = false ∧
    (runJob bt site (envOf bt) s).finalStatus = "FAILURE" ∧
    (runJob bt site (envOf bt) s).ending = JobEnd.exited 1 ∧
    runAll site envOf (bt :: rest) s = [(bt, runJob bt site (envOf bt) s)] := by
  have hj : runJob bt site (envOf bt) s = failEnd (envOf bt) false false := by
    cases hv : spreadsheet_id_for bt with
    | none => exact absurd hv hid
    | some v => simp [runJob, hv, h]
  refine ⟨?_, ?_, ?_, ?_, ?_⟩
  · rw [hj, failEnd_sourceLookedUp]
  · rw [hj, failEnd_compressed]
  · rw [hj, failEnd_finalStatus]
  · rw [hj, failEnd_ending]
  · exact runAll_cons_stop site s bt rest envOf (by rw [hj, failEnd_ending]; simp)

/-- C6, witness for the amended theorem at two configured types with the
remote unconfigured. -/
theorem C6_amended_witness :
    (runJob "dhcp" "s1" envNoRemote "UNKNOWN").finalStatus = "FAILURE" ∧
    runAll "s1" (fun _ => envNoRemote) ["dhcp", "dns"] "UNKNOWN"
      = [("dhcp", runJob "dhcp" "s1" envNoRemote "UNKNOWN")] :=
  ⟨(C6_amended_thm "s1" "UNKNOWN" "dhcp" ["dns"] (fun _ => envNoRemote)
      (by decide) rfl).2.2.1,
   (C6_amended_thm "s1" "UNKNOWN" "dhcp" ["dns"] (fun _ => envNoRemote)
      (by decide) rfl).2.2.2.2⟩

/-- C7, counterexample: for the unrecognized backup type "snapshots" the
locator would indeed return `None`, but the run crashes at the
spreadsheet-id dispatch (uncaught `NameError`) before source lookup, and
no FAILURE row is ever reported.  This refutes the claim that the run
handles an unrecognized type as a job failure rather than crashing. -/
theorem C7_counterexample :
    get_backup_source "snapshots" envOk.fs = none ∧
    (runJob "snapshots" "s1" envOk "UNKNOWN").ending = JobEnd.crashed ∧
    (runJob "snapshots" "s1" envOk "UNKNOWN").sourceLookedUp = false ∧
    (runJob "snapshots" "s1" envOk "UNKNOWN").reported = [] := by
  refine ⟨by decide, by decide, by decide, by decide⟩

/-- C7, amended: for every backup-type identifier that resolves to no
spreadsheet-id global, the source locator (if it were reached) returns
`None`, but the run crashes with an uncaught `NameError` at the
spreadsheet-id dispatch before the source lookup, and the job is not
reported as a failure. -/
theorem C7_amended_thm (bt site s : String) (env : JobEnv)
    (h : spreadsheet_id_for bt = none) :
    get_backup_source bt env.fs = none ∧
    runJob bt site env s = crashTrace s ∧
    (runJob bt site env s).ending = JobEnd.crashed ∧
    (runJob bt site env s).reported = [] := by
  obtain ⟨n1, n2, n3, n4, n5⟩ := spreadsheet_none_unknown bt h
  have hj : runJob bt site env s = crashTrace s := by simp [runJob, h]
  refine ⟨?_, hj, by rw [hj]; rfl, by rw [hj]; rfl⟩
  unfold get_backup_source
  rw [if_neg n1, if_neg n2, if_neg n3, if_neg n4, if_neg n5]

/-- C7, witness for the amended theorem at the unrecognized type "foo". -/
theorem C7_amended_witness :
    get_backup_source "foo" envOk.fs = none ∧
    runJob "foo" "s1" envOk "UNKNOWN" = crashTrace "UNKNOWN" ∧
    (runJob "foo" "s1" envOk "UNKNOWN").ending = JobEnd.crashed ∧
    (runJob "foo" "s1" envOk "UNKNOWN").reported = [] :=
  C7_amended_thm "foo" "s1" "UNKNOWN" envOk (by decide)

/-- C8: if the fetch fails, self-update warns and neither writes nor
re-execs; if the fetched content is empty, it neither writes nor
re-execs; if the hashes agree, no write and no re-exec occur; if the
hashes differ, the script file is overwritten exactly once with exactly
the fetched content and the process re-execs. -/
theorem C8_self_update (current remote : String) (hash : String → String) :
    ((self_update_script current hash none).wrote = none ∧
     (self_update_script current hash none).reexec = false ∧
     (self_update_script current hash none).warned = true) ∧
    ((self_update_script current hash (some "")).wrote = none ∧
     (self_update_script current hash (some "")).reexec = false) ∧
    (remote ≠ "" → hash current = hash remote →
      (self_update_script current hash (some remote)).wrote = none ∧
      (self_update_script current hash (some remote)).reexec = false) ∧
    (remote ≠ "" → hash current ≠ hash remote →
      (self_update_script current hash (some remote)).wrote = some remote ∧
      (self_update_script current hash (some remote)).reexec = true) := by
  refine ⟨⟨rfl, rfl, rfl⟩, ⟨rfl, rfl⟩, ?_, ?_⟩ <;>
    intro hne hh <;> constructor <;> simp [self_update_script, hne, hh]

/-- C8, witness: with the identity as hash, differing contents trigger
exactly the overwrite-with-fetched-content and the re-exec. -/
theorem C8_witness :
    (self_update_script "a" (fun str => str) (some "b")).wrote = some "b" ∧
    (self_update_script "a" (fun str => str) (some "b")).reexec = true :=
  (C8_self_update "a" "b" (fun str => str)).2.2.2 (by decide) (by decide)

/-- C9: whenever compression succeeded (the archive exists in scratch
space), the iteration removes the local archive — the `finally` runs
both on upload success and while the FAILURE report's `SystemExit`
unwinds. -/
theorem C9_archive_cleanup (bt site s : String) (env : JobEnv) :
    (runJob bt site env s).compressed = true →
    (runJob bt site env s).archiveRemoved = true := by
  rcases runJob_shape bt site s env with hc | ⟨l, hf⟩ | ⟨hu, hf⟩ | ⟨hu, hs⟩
  · rw [hc]; exact fun h => h
  · rw [hf]; exact fun h => h
  · rw [hf]; intro _; rfl
  · rw [hs]; intro _; rfl

/-- C9, witness: in the upload-failure run (where the failure report
terminates the process) the archive is still removed. -/
theorem C9_witness :
    (runJob "dhcp" "s1" envUploadFail "UNKNOWN").archiveRemoved = true :=
  C9_archive_cleanup "dhcp" "s1" "UNKNOWN" envUploadFail (by decide)

/-- C10: listing remote archives is a total function of the command's
stdout — a failed list command (empty stdout) yields `[]`, as does a
listing in which no line matches the pattern; and with an empty listing
the retention step attempts no deletes while the job's status and the
way the iteration ends are exactly as with any other listing. -/
theorem C10_list_total (pat out bt site s : String) (env : JobEnv) :
    rclone_list_files "" pat = [] ∧
    ((∀ line ∈ splitlines out, strContains line pat = false) →
      rclone_list_files out pat = []) ∧
    (runJob bt site { env with listStdout := "" } s).deletesAttempted = [] ∧
    (runJob bt site { env with listStdout := "" } s).finalStatus
      = (runJob bt site env s).finalStatus ∧
    (runJob bt site { env with listStdout := "" } s).ending
      = (runJob bt site env s).ending := by
  refine ⟨rfl, ?_, ?_, ?_, ?_⟩
  · intro h
    unfold rclone_list_files
    rw [List.filter_eq_nil_iff]
    intro a ha
    simp [h a ha]
  · rcases runJob_shape bt site s { env with listStdout := "" } with
      hc | ⟨l, hf⟩ | ⟨hu, hf⟩ | ⟨hu, hs⟩
    · rw [hc]; rfl
    · rw [hf, failEnd_deletesAttempted]
    · rw [hf, failEnd_deletesAttempted]
    · rw [hs, successTrace_deletesAttempted]
      rfl
  · exact (runJob_status_ending bt site s { env with listStdout := "" }
      env rfl rfl rfl rfl rfl rfl).1
  · exact (runJob_status_ending bt site s { env with listStdout := "" }
      env rfl rfl rfl rfl rfl rfl).2

/-- C10, witness: a listing whose lines never match the pattern filters
to the empty list. -/
theorem C10_witness :
    rclone_list_files "alpha\nbeta" "zzz" = [] :=
  (C10_list_total "zzz" "alpha\nbeta" "dhcp" "s1" "UNKNOWN" envOk).2.1 (by decide)

end RcloneBackup
